import Mathlib

/-!
Shallow embedding of `hw2/cnn.py`: construction of the plain CNN feature
extractor, the residual and bottleneck-residual blocks, the ResNet feature
extractor, the shape bookkeeping performed during construction, the
RNG-scoped feature-count probe, and the classifier wiring.  Layers of the
host tensor library are represented structurally; where a theorem needs the
library's shape behaviour, the standard convolution/pooling output-size
arithmetic is used.
-/

namespace Hw2

/-- Error raised during model construction: a failed `assert`, an explicit
`ValueError`, or a runtime failure propagated from the tensor library. -/
inductive BuildErr where
  | assertionError
  | valueError
  | runtimeError
deriving DecidableEq

/-- Padding argument of `nn.Conv2d`: either a numeric padding or the
string value `padding='same'`. -/
inductive Padding where
  | num (p : Nat)
  | same
deriving DecidableEq

/-- One layer of an assembled pipeline, as instantiated by `cnn.py`.
`act` carries the activation kind string and the leaky-relu negative
slope (the only activation parameter the module family uses). -/
inductive Layer where
  | conv2d (cin cout kernel stride : Nat) (pad : Padding) (bias : Bool)
  | act (ty : String) (slope : Rat)
  | pool2d (ty : String) (kernel : Nat)
  | dropout2d (p : Rat)
  | batchnorm2d (c : Nat)
  | identity
deriving DecidableEq

/-- Keys of the `POOLINGS` registry, `cnn.py` line 10. -/
def POOLINGS : List String := ["avg", "max"]

/-- Modelled from the spec: the `ACTIVATIONS` registry is imported from
`hw2/mlp.py`, which is not among the sources; per the spec the supported
activation kinds are exactly `relu` and `lrelu` (leaky relu). -/
def ACTIVATIONS : List String := ["relu", "lrelu"]

/-- The `conv_params` dict as consumed by `CNN._make_feature_extractor`
(the keys it reads: `kernel_size`, `stride`, `padding`). -/
structure ConvParams where
  kernel_size : Nat
  stride : Nat
  padding : Nat
deriving DecidableEq

/-- Constructor arguments of `CNN` (`cnn.py` lines 22-66).  The
`activation_params`/`pooling_params` dicts are reduced to the fields the
code actually reads: the leaky-relu slope and the pooling kernel size. -/
structure CNNConfig where
  in_channels : Nat
  in_h : Int
  in_w : Int
  out_classes : Nat
  channels : List Nat
  pool_every : Nat
  hidden_dims : List Nat
  conv_params : ConvParams
  activation_type : String := "relu"
  activation_slope : Rat := 0
  pooling_type : String := "max"
  pool_kernel : Nat
deriving DecidableEq

/-- Dimension update after a convolution, `cnn.py` lines 92-93:
`math.floor((dim - kernel_size + 2*padding) / stride)`. -/
def convOutDim (d : Int) (cp : ConvParams) : Int :=
  Int.fdiv (d - cp.kernel_size + 2 * cp.padding) cp.stride

/-- Dimension update after a pooling stage, `cnn.py` lines 97-98:
`math.floor(dim / kernel_size)`. -/
def poolOutDim (d : Int) (k : Nat) : Int :=
  Int.fdiv d k

/-- The convolution layer emitted by the plain CNN builder (`cnn.py`
line 90): `nn.Conv2d(cin, cout, **conv_params)` with default bias. -/
def cnnConvLayer (cp : ConvParams) (cin cout : Nat) : Layer :=
  Layer.conv2d cin cout cp.kernel_size cp.stride (Padding.num cp.padding) true

/-- The activation module `phi` built once at `cnn.py` line 87. -/
def actLayerOf (cfg : CNNConfig) : Layer :=
  Layer.act cfg.activation_type cfg.activation_slope

/-- The pooling layer emitted at `cnn.py` line 96. -/
def poolLayerOf (cfg : CNNConfig) : Layer :=
  Layer.pool2d cfg.pooling_type cfg.pool_kernel

/-- The `(in, out)` channel pairs iterated at `cnn.py` line 89:
`zip([in_channels] + channels[:-1], channels)`. -/
def convPairs (cfg : CNNConfig) : List (Nat × Nat) :=
  List.zip (cfg.in_channels :: cfg.channels.dropLast) cfg.channels

/-- The loop body of `CNN._make_feature_extractor` (`cnn.py` lines 89-98):
emit a convolution and the activation for each channel pair, update the
running spatial dimensions, and emit a pooling layer (updating dimensions
again) whenever the running counter is a multiple of `pool_every`.
Returns the layer list together with the final `(conv_out_h, conv_out_w)`. -/
def cnnLoop (cfg : CNNConfig) :
    List (Nat × Nat) → Nat → Int → Int → List Layer × Int × Int
  | [], _, h, w => ([], h, w)
  | (cin, cout) :: rest, poolCount, h, w =>
    let h := convOutDim h cfg.conv_params
    let w := convOutDim w cfg.conv_params
    let poolCount := poolCount + 1
    if poolCount % cfg.pool_every = 0 then
      let r := cnnLoop cfg rest poolCount
        (poolOutDim h cfg.pool_kernel) (poolOutDim w cfg.pool_kernel)
      (cnnConvLayer cfg.conv_params cin cout :: actLayerOf cfg ::
        poolLayerOf cfg :: r.1, r.2)
    else
      let r := cnnLoop cfg rest poolCount h w
      (cnnConvLayer cfg.conv_params cin cout :: actLayerOf cfg :: r.1, r.2)

/-- `CNN._make_feature_extractor` (`cnn.py` lines 71-104): the layer list
together with the final recorded `conv_out_h`/`conv_out_w` trackers, which
start at the input spatial size (lines 84-85). -/
def cnnMakeFeatureExtractor (cfg : CNNConfig) : List Layer × Int × Int :=
  cnnLoop cfg (convPairs cfg) 0 cfg.in_h cfg.in_w

/-- Standard convolution output size of the host library's `nn.Conv2d`
(spec section 6, "standard cross-correlation semantics"):
`floor((dim + 2*padding - kernel) / stride) + 1`. -/
def trueConvOutDim (d : Int) (k s p : Nat) : Int :=
  Int.fdiv (d + 2 * p - k) s + 1

/-- Standard pooling output size of the host library's 2D pooling with
stride defaulting to the kernel size: `floor((dim - kernel) / kernel) + 1`. -/
def truePoolOutDim (d : Int) (k : Nat) : Int :=
  Int.fdiv (d - k) k + 1

/-- Spec-side dimension bookkeeping for the plain CNN builder: fold the
claimed per-stage formulas over the emitted layer list, ignoring layers
that do not change the spatial size. -/
def trackDim : Int → List Layer → Int
  | d, [] => d
  | d, Layer.conv2d _ _ k s (Padding.num p) _ :: rest =>
      trackDim (Int.fdiv (d - k + 2 * p) s) rest
  | d, Layer.pool2d _ k :: rest => trackDim (Int.fdiv d k) rest
  | d, _ :: rest => trackDim d rest

/-- Spec-side shape of a run of `(CONV -> ACT)` stages over channel pairs. -/
def convActs (cfg : CNNConfig) : List (Nat × Nat) → List Layer
  | [] => []
  | p :: rest =>
      cnnConvLayer cfg.conv_params p.1 p.2 :: actLayerOf cfg :: convActs cfg rest

/-- Helper for relating the builder loop to the grouped pipeline shape:
`r` counts the convolutions remaining before the next pooling layer. -/
def specFrom (cfg : CNNConfig) : List (Nat × Nat) → Nat → List Layer
  | [], _ => []
  | p :: rest, r =>
      cnnConvLayer cfg.conv_params p.1 p.2 :: actLayerOf cfg ::
        (if r = 1 then poolLayerOf cfg :: specFrom cfg rest cfg.pool_every
         else specFrom cfg rest (r - 1))

/-- Spec-side grouped pipeline: `g` complete groups of `pool_every`
`(CONV -> ACT)` stages each followed by one pooling layer, then the
remaining `(CONV -> ACT)` stages with no pool after them. -/
def cnnPipelineGroups (cfg : CNNConfig) : Nat → List (Nat × Nat) → List Layer
  | 0, ps => convActs cfg ps
  | g + 1, ps =>
      convActs cfg (ps.take cfg.pool_every) ++
        (poolLayerOf cfg :: cnnPipelineGroups cfg g (ps.drop cfg.pool_every))

/-- The pipeline shape stated by the claim:
`[(CONV -> ACT) * P -> POOL] * (N / P)` followed by `N % P` trailing
`(CONV -> ACT)` stages. -/
def cnnPipelineSpec (cfg : CNNConfig) : List Layer :=
  cnnPipelineGroups cfg (cfg.channels.length / cfg.pool_every) (convPairs cfg)

/-- Number of stage-units of a pipeline: each convolution and each pooling
layer is one stage-unit (an activation belongs to its convolution). -/
def stageUnits : List Layer → Nat
  | [] => 0
  | Layer.conv2d _ _ _ _ _ _ :: rest => stageUnits rest + 1
  | Layer.pool2d _ _ :: rest => stageUnits rest + 1
  | _ :: rest => stageUnits rest

/-- Constructor arguments of `ResidualBlock` (`cnn.py` lines 161-193). -/
structure ResBlockConfig where
  in_channels : Nat
  channels : List Nat
  kernel_sizes : List Nat
  batchnorm : Bool := false
  dropout : Rat := 0
  activation_type : String := "relu"
  activation_slope : Rat := 0
deriving DecidableEq

/-- The two sub-pipelines a `ResidualBlock` consists of. -/
structure ResBlock where
  main_path : List Layer
  shortcut_path : List Layer
deriving DecidableEq

/-- `all_channels = [in_channels] + channels`, `cnn.py` line 211. -/
def allChannelsOf (cfg : ResBlockConfig) : List Nat :=
  cfg.in_channels :: cfg.channels

/-- The main-path loop of `ResidualBlock.__init__` (`cnn.py` lines 214-224),
indexed exactly like the source: iteration `i` emits the convolution
`all_channels[i] -> all_channels[i+1]` with kernel `kernel_sizes[i]`,
same-size padding and bias; the loop `break`s after the last convolution,
and otherwise appends dropout (if positive), batchnorm (if enabled) and
the activation, in that order. -/
def resMainGo (cfg : ResBlockConfig) (i : Nat) : List Layer :=
  if h : i < cfg.kernel_sizes.length then
    Layer.conv2d ((allChannelsOf cfg).getD i 0) ((allChannelsOf cfg).getD (i + 1) 0)
        (cfg.kernel_sizes.getD i 0) 1 Padding.same true ::
      (if i = cfg.kernel_sizes.length - 1 then []
       else
        (if 0 < cfg.dropout then [Layer.dropout2d cfg.dropout] else []) ++
          (if cfg.batchnorm then
            [Layer.batchnorm2d ((allChannelsOf cfg).getD (i + 1) 0)] else []) ++
          (Layer.act cfg.activation_type cfg.activation_slope ::
            resMainGo cfg (i + 1)))
  else []
termination_by cfg.kernel_sizes.length - i
decreasing_by omega

/-- `ResidualBlock.__init__` (`cnn.py` lines 187-231): the asserts on the
channel/kernel lists, the activation-kind check, the main path, and the
shortcut path (identity when the input channel count equals the final
output channel count, otherwise a single bias-free 1x1 convolution). -/
def residualBlockInit (cfg : ResBlockConfig) : Except BuildErr ResBlock :=
  if cfg.channels.isEmpty ∨ cfg.kernel_sizes.isEmpty then
    Except.error BuildErr.assertionError
  else if ¬ cfg.channels.length = cfg.kernel_sizes.length then
    Except.error BuildErr.assertionError
  else if ¬ cfg.kernel_sizes.all (fun k => k % 2 = 1) then
    Except.error BuildErr.assertionError
  else if cfg.activation_type ∉ ACTIVATIONS then
    Except.error BuildErr.valueError
  else
    Except.ok
      { main_path := resMainGo cfg 0
        shortcut_path :=
          if cfg.in_channels = cfg.channels.getLastD 0 then [Layer.identity]
          else
            [Layer.conv2d cfg.in_channels (cfg.channels.getLastD 0) 1 1
              Padding.same false] }

/-- The main-path shape stated by the claim, consuming the channel list
and kernel list in lockstep: every convolution except the last is followed
by dropout (only if positive), then batchnorm (only if enabled), then the
activation; the last convolution is followed by nothing. -/
def mainPathSpecGo (cfg : ResBlockConfig) : List Nat → List Nat → List Layer
  | cin :: cout :: _, [k] => [Layer.conv2d cin cout k 1 Padding.same true]
  | cin :: cout :: cs, k :: ks =>
      Layer.conv2d cin cout k 1 Padding.same true ::
        ((if 0 < cfg.dropout then [Layer.dropout2d cfg.dropout] else []) ++
          (if cfg.batchnorm then [Layer.batchnorm2d cout] else []) ++
          (Layer.act cfg.activation_type cfg.activation_slope ::
            mainPathSpecGo cfg (cout :: cs) ks))
  | _, _ => []

/-- The claimed main-path shape of a residual block. -/
def mainPathSpec (cfg : ResBlockConfig) : List Layer :=
  mainPathSpecGo cfg (allChannelsOf cfg) cfg.kernel_sizes

/-- Whether a layer carries learned parameters. -/
def layerHasParams : Layer → Bool
  | Layer.conv2d _ _ _ _ _ _ => true
  | Layer.batchnorm2d _ => true
  | _ => false

/-- `ResidualBottleneckBlock.__init__` (`cnn.py` lines 251-286): after the
asserts on the inner lists, delegate to `ResidualBlock` with the inner
channel list bracketed as `[inner[0]] + inner + [in_out_channels]` and the
kernel list bracketed as `[1] + inner_kernel_sizes + [1]`. -/
def residualBottleneckBlockInit (in_out_channels : Nat)
    (inner_channels : List Nat) (inner_kernel_sizes : List Nat)
    (batchnorm : Bool) (dropout : Rat) (activation_type : String)
    (activation_slope : Rat) : Except BuildErr ResBlock :=
  if inner_channels.isEmpty then Except.error BuildErr.assertionError
  else if ¬ inner_channels.length = inner_kernel_sizes.length then
    Except.error BuildErr.assertionError
  else
    residualBlockInit
      { in_channels := in_out_channels
        channels := inner_channels.headD 0 :: (inner_channels ++ [in_out_channels])
        kernel_sizes := 1 :: (inner_kernel_sizes ++ [1])
        batchnorm := batchnorm
        dropout := dropout
        activation_type := activation_type
        activation_slope := activation_slope }

/-- Constructor arguments of `ResNet` (`cnn.py` lines 292-314). -/
structure ResNetConfig where
  in_channels : Nat
  in_h : Int
  in_w : Int
  out_classes : Nat
  channels : List Nat
  pool_every : Nat
  hidden_dims : List Nat
  batchnorm : Bool := false
  dropout : Rat := 0
  bottleneck : Bool := false
  activation_type : String := "relu"
  activation_slope : Rat := 0
  pooling_type : String := "max"
  pool_kernel : Nat
deriving DecidableEq

/-- `all_channels = [in_channels] + channels`, `cnn.py` line 333. -/
def resnetAllChannels (cfg : ResNetConfig) : List Nat :=
  cfg.in_channels :: cfg.channels

/-- One stage of the ResNet feature extractor: a residual block or a
pooling layer. -/
inductive RStage where
  | block (b : ResBlock)
  | pool2d (ty : String) (kernel : Nat)
deriving DecidableEq

/-- The group body of `ResNet._make_feature_extractor` (`cnn.py` lines
336-353): group `i` is a plain `ResidualBlock` over
`all_channels[i*P+1 : (i+1)*P+1]` with 3x3 kernels when
`all_channels[i*P] != all_channels[P*(i+1)]` or bottleneck mode is off;
otherwise a `ResidualBottleneckBlock` whose inner channels are
`all_channels[i*P+2 : (i+1)*P]` with `P-2` 3x3 inner kernels. -/
def resnetGroupBlock (cfg : ResNetConfig) (i : Nat) : Except BuildErr ResBlock :=
  if (resnetAllChannels cfg).getD (i * cfg.pool_every) 0 ≠
      (resnetAllChannels cfg).getD (cfg.pool_every * (i + 1)) 0 ∨
      cfg.bottleneck = false then
    residualBlockInit
      { in_channels := (resnetAllChannels cfg).getD (i * cfg.pool_every) 0
        channels := ((resnetAllChannels cfg).drop (i * cfg.pool_every + 1)).take
          ((i + 1) * cfg.pool_every + 1 - (i * cfg.pool_every + 1))
        kernel_sizes := List.replicate cfg.pool_every 3
        batchnorm := cfg.batchnorm
        dropout := cfg.dropout
        activation_type := cfg.activation_type
        activation_slope := cfg.activation_slope }
  else
    residualBottleneckBlockInit
      ((resnetAllChannels cfg).getD (i * cfg.pool_every) 0)
      (((resnetAllChannels cfg).drop (i * cfg.pool_every + 2)).take
        ((i + 1) * cfg.pool_every - (i * cfg.pool_every + 2)))
      (List.replicate (cfg.pool_every - 2) 3)
      cfg.batchnorm cfg.dropout cfg.activation_type cfg.activation_slope

/-- The loop of `ResNet._make_feature_extractor` over the complete groups
(`cnn.py` lines 336-355): each group contributes its residual block
followed by one pooling layer; a failing block construction aborts the
whole build (Python exception propagation). -/
def resnetGroups (cfg : ResNetConfig) : List Nat → Except BuildErr (List RStage)
  | [] => Except.ok []
  | i :: rest => do
    let b ← resnetGroupBlock cfg i
    let tail ← resnetGroups cfg rest
    Except.ok (RStage.block b :: RStage.pool2d cfg.pooling_type cfg.pool_kernel :: tail)

/-- The trailing-remainder part of `ResNet._make_feature_extractor`
(`cnn.py` lines 356-374): when `N % P > 0`, one more residual block (plain
unless bottleneck mode is on and `all_channels[-length-1] ==
all_channels[-1]`) with no pooling layer after it. -/
def resnetRemainderStages (cfg : ResNetConfig) : Except BuildErr (List RStage) :=
  if 0 < cfg.channels.length % cfg.pool_every then
    if (resnetAllChannels cfg).getD
        ((resnetAllChannels cfg).length -
          cfg.channels.length % cfg.pool_every - 1) 0 ≠
        (resnetAllChannels cfg).getLastD 0 ∨ cfg.bottleneck = false then
      (residualBlockInit
        { in_channels := (resnetAllChannels cfg).getD
            ((resnetAllChannels cfg).length -
              cfg.channels.length % cfg.pool_every - 1) 0
          channels := (resnetAllChannels cfg).drop
            ((resnetAllChannels cfg).length -
              cfg.channels.length % cfg.pool_every)
          kernel_sizes := List.replicate (cfg.channels.length % cfg.pool_every) 3
          batchnorm := cfg.batchnorm
          dropout := cfg.dropout
          activation_type := cfg.activation_type
          activation_slope := cfg.activation_slope }).map
        (fun b => [RStage.block b])
    else
      (residualBottleneckBlockInit
        ((resnetAllChannels cfg).getD
          ((resnetAllChannels cfg).length -
            cfg.channels.length % cfg.pool_every - 1) 0)
        (((resnetAllChannels cfg).drop
          ((resnetAllChannels cfg).length -
            cfg.channels.length % cfg.pool_every)).dropLast)
        (List.replicate (cfg.pool_every - 2) 3)
        cfg.batchnorm cfg.dropout cfg.activation_type cfg.activation_slope).map
        (fun b => [RStage.block b])
  else Except.ok []

/-- `ResNet._make_feature_extractor` (`cnn.py` lines 316-382): the complete
groups followed by the remainder block, if any. -/
def resnetMakeFeatureExtractor (cfg : ResNetConfig) :
    Except BuildErr (List RStage) := do
  let gs ← resnetGroups cfg (List.range (cfg.channels.length / cfg.pool_every))
  let rem ← resnetRemainderStages cfg
  Except.ok (gs ++ rem)

/-- Random draws consumed by one layer when run in the default training
mode: an active dropout layer consumes the generator, nothing else does. -/
def layerRngDraws : Layer → Nat
  | Layer.dropout2d _ => 1
  | _ => 0

/-- Random draws consumed by running a layer list in training mode. -/
def pathRngDraws : List Layer → Nat
  | [] => 0
  | l :: rest => layerRngDraws l + pathRngDraws rest

/-- Random draws consumed by one residual block (both sub-paths run). -/
def blockRngDraws (b : ResBlock) : Nat :=
  pathRngDraws b.main_path + pathRngDraws b.shortcut_path

/-- Random draws consumed by one ResNet stage. -/
def rstageRngDraws : RStage → Nat
  | RStage.block b => blockRngDraws b
  | RStage.pool2d _ _ => 0

/-- Random draws consumed by running a ResNet feature extractor. -/
def probeRngDraws : List RStage → Nat
  | [] => 0
  | s :: rest => rstageRngDraws s + probeRngDraws rest

/-- The probe's forward run through a ResNet extractor, RNG effect only:
the abstract numeric outcome is a parameter (`none` models a raised
exception) and the generator state advances by one unit per active
dropout layer, since the model is never switched out of training mode. -/
def probeRun (stages : List RStage) (probeResult : Option Nat) (rng : Nat) :
    Option Nat × Nat :=
  (probeResult, rng + probeRngDraws stages)

/-- `CNN._n_features` (`cnn.py` lines 106-120), RNG effect for a ResNet
extractor: save the generator state, run the probe, and restore the saved
state in the `finally` block whether or not the probe succeeded. -/
def nFeaturesRngResnet (stages : List RStage) (probeResult : Option Nat)
    (rng : Nat) : Option Nat × Nat :=
  let saved := rng
  let r := probeRun stages probeResult rng
  (r.1, saved)

/-- The probe's forward run through a plain CNN extractor, RNG effect only. -/
def probeRunCnn (layers : List Layer) (probeResult : Option Nat) (rng : Nat) :
    Option Nat × Nat :=
  (probeResult, rng + pathRngDraws layers)

/-- `CNN._n_features` (`cnn.py` lines 106-120), RNG effect for a plain CNN
extractor: scoped save/restore around the probe. -/
def nFeaturesRngCnn (layers : List Layer) (probeResult : Option Nat)
    (rng : Nat) : Option Nat × Nat :=
  let saved := rng
  let r := probeRunCnn layers probeResult rng
  (r.1, saved)

/-- Output shape of one layer on a `(channels, height, width)` input, by
the standard semantics of the host library's primitives (spec section 6);
`none` models a raised runtime error (channel mismatch or a collapsed
spatial dimension). -/
def layerOutShape : Layer → Nat × Int × Int → Option (Nat × Int × Int)
  | Layer.conv2d cin cout k s (Padding.num p) _, (c, h, w) =>
    let h2 := trueConvOutDim h k s p
    let w2 := trueConvOutDim w k s p
    if c = cin ∧ 1 ≤ h2 ∧ 1 ≤ w2 then some (cout, h2, w2) else none
  | Layer.conv2d cin cout _ _ Padding.same _, (c, h, w) =>
    if c = cin ∧ 1 ≤ h ∧ 1 ≤ w then some (cout, h, w) else none
  | Layer.pool2d _ k, (c, h, w) =>
    let h2 := truePoolOutDim h k
    let w2 := truePoolOutDim w k
    if 1 ≤ h2 ∧ 1 ≤ w2 then some (c, h2, w2) else none
  | _, s => some s

/-- Output shape of a layer pipeline, standard semantics. -/
def pipelineOutShape : List Layer → Nat × Int × Int → Option (Nat × Int × Int)
  | [], s => some s
  | l :: rest, s =>
    match layerOutShape l s with
    | none => none
    | some s2 => pipelineOutShape rest s2

/-- Element count of a `(channels, height, width)` tensor shape. -/
def numelOf (s : Nat × Int × Int) : Nat :=
  s.1 * s.2.1.toNat * s.2.2.toNat

/-- `CNN._n_features` value (`cnn.py` lines 106-120): run a zero tensor of
the input shape through the assembled extractor and count the output
elements; `none` models the forward pass raising. -/
def nFeaturesTrue (layers : List Layer) (inShape : Nat × Int × Int) :
    Option Nat :=
  (pipelineOutShape layers inShape).map numelOf

/-- The parts of a constructed `CNN` module the claims are about: the
feature extractor, the recorded dimension trackers, and the classifier
head's input dimension and layer widths. -/
structure CNNModel where
  feature_extractor : List Layer
  conv_out_h : Int
  conv_out_w : Int
  mlp_in_dim : Nat
  mlp_dims : List Nat
deriving DecidableEq

/-- `CNN.__init__` (`cnn.py` lines 22-69): the asserts on `channels` and
`hidden_dims`, the activation/pooling-kind check (raised before any layer
is built), then the feature extractor and the MLP head, whose input
dimension is `CNN._n_features()` measured by running the extractor. -/
def cnnInit (cfg : CNNConfig) : Except BuildErr CNNModel :=
  if cfg.channels.isEmpty ∨ cfg.hidden_dims.isEmpty then
    Except.error BuildErr.assertionError
  else if cfg.activation_type ∉ ACTIVATIONS ∨ cfg.pooling_type ∉ POOLINGS then
    Except.error BuildErr.valueError
  else
    match nFeaturesTrue (cnnMakeFeatureExtractor cfg).1
        (cfg.in_channels, cfg.in_h, cfg.in_w) with
    | none => Except.error BuildErr.runtimeError
    | some n =>
      Except.ok
        { feature_extractor := (cnnMakeFeatureExtractor cfg).1
          conv_out_h := (cnnMakeFeatureExtractor cfg).2.1
          conv_out_w := (cnnMakeFeatureExtractor cfg).2.2
          mlp_in_dim := n
          mlp_dims := cfg.hidden_dims ++ [cfg.out_classes] }

/-- Feature count predicted by the builder's `conv_out_h`/`conv_out_w`
dimension trackers (what `_n_features` would return if it trusted them). -/
def trackerFeatures (cfg : CNNConfig) (m : CNNModel) : Nat :=
  cfg.channels.getLastD 0 * m.conv_out_h.toNat * m.conv_out_w.toNat

/-- Elementwise rectified-linear activation, `torch.relu`. -/
def reluQ (x : Rat) : Rat := max x 0

/-- Elementwise leaky rectified-linear activation with negative slope. -/
def lreluQ (slope x : Rat) : Rat := if x < 0 then slope * x else x

/-- Elementwise evaluation of one layer on a scalar signal: activations
have their concrete semantics, the identity is the identity, and the
remaining (linear/stochastic) primitives are an abstract parameter. -/
def evalLayer (sem : Layer → Rat → Rat) (l : Layer) (x : Rat) : Rat :=
  match l with
  | Layer.act ty s =>
    if ty = "relu" then reluQ x
    else if ty = "lrelu" then lreluQ s x
    else sem l x
  | Layer.identity => x
  | _ => sem l x

/-- Evaluation of a layer pipeline on a scalar signal. -/
def evalPath (sem : Layer → Rat → Rat) : List Layer → Rat → Rat
  | [], x => x
  | l :: rest, x => evalPath sem rest (evalLayer sem l x)

/-- `ResidualBlock.forward` (`cnn.py` lines 235-243): the two paths are
run on the input, summed, and passed through `torch.relu`
unconditionally. -/
def residualForward (sem : Layer → Rat → Rat) (b : ResBlock) (x : Rat) : Rat :=
  reluQ (evalPath sem b.main_path x + evalPath sem b.shortcut_path x)

/-- The builder's running dimension equals the fold of the per-stage
formulas over the layers it has emitted, for either spatial axis. -/
theorem cnnLoop_dims (cfg : CNNConfig) :
    ∀ (ps : List (Nat × Nat)) (c : Nat) (h w : Int),
      (cnnLoop cfg ps c h w).2.1 = trackDim h (cnnLoop cfg ps c h w).1 ∧
      (cnnLoop cfg ps c h w).2.2 = trackDim w (cnnLoop cfg ps c h w).1
  | [], c, h, w => by simp [cnnLoop, trackDim]
  | (cin, cout) :: rest, c, h, w => by
    have ih := cnnLoop_dims cfg rest (c + 1)
    by_cases hc : (c + 1) % cfg.pool_every = 0
    · simpa [cnnLoop, hc, trackDim, cnnConvLayer, actLayerOf, poolLayerOf,
        convOutDim, poolOutDim] using
        ih (poolOutDim (convOutDim h cfg.conv_params) cfg.pool_kernel)
           (poolOutDim (convOutDim w cfg.conv_params) cfg.pool_kernel)
    · simpa [cnnLoop, hc, trackDim, cnnConvLayer, actLayerOf, poolLayerOf,
        convOutDim, poolOutDim] using
        ih (convOutDim h cfg.conv_params) (convOutDim w cfg.conv_params)

/-- C3: during plain-CNN construction the running spatial dimensions are
updated after every convolution by exactly
`floor((dim - kernel_size + 2*padding) / stride)` — one less than the
standard convolution output size, i.e. with no trailing `+1` — and after
every pooling stage by exactly `floor(dim / pool_kernel_size)`; hence the
recorded trackers are the fold of these exact formulas over the emitted
pipeline. -/
theorem claim_C3 (cfg : CNNConfig) :
    (cnnMakeFeatureExtractor cfg).2.1 =
        trackDim cfg.in_h (cnnMakeFeatureExtractor cfg).1 ∧
    (cnnMakeFeatureExtractor cfg).2.2 =
        trackDim cfg.in_w (cnnMakeFeatureExtractor cfg).1 ∧
    (∀ d : Int, convOutDim d cfg.conv_params =
        Int.fdiv (d - cfg.conv_params.kernel_size + 2 * cfg.conv_params.padding)
          cfg.conv_params.stride) ∧
    (∀ d : Int, convOutDim d cfg.conv_params =
        trueConvOutDim d cfg.conv_params.kernel_size cfg.conv_params.stride
          cfg.conv_params.padding - 1) ∧
    (∀ (d : Int) (k : Nat), poolOutDim d k = Int.fdiv d k) := by
  refine ⟨(cnnLoop_dims cfg _ 0 cfg.in_h cfg.in_w).1,
          (cnnLoop_dims cfg _ 0 cfg.in_h cfg.in_w).2, fun d => rfl, fun d => ?_,
          fun d k => rfl⟩
  unfold convOutDim trueConvOutDim
  ring_nf

/-- A boolean that is true is not false. -/
theorem bool_true_not_false {b : Bool} (hb : b = true) : ¬ b = false := by
  intro hf
  rw [hb] at hf
  exact Bool.noConfusion hf

/-- Incrementing a counter lands on a multiple of `P` exactly when the
counter's residue was `P - 1`. -/
theorem succ_mod_eq_zero_iff (c P : Nat) (hP : 1 ≤ P) :
    (c + 1) % P = 0 ↔ c % P = P - 1 := by
  constructor
  · intro hc
    obtain ⟨q, hq⟩ := Nat.dvd_of_mod_eq_zero hc
    rcases q with _ | q'
    · simp at hq
    · rw [Nat.mul_succ] at hq
      have hc' : c = P * q' + (P - 1) := by
        have hm : P * q' + P = P * q' + P := rfl
        omega
      rw [hc', Nat.mul_add_mod]
      exact Nat.mod_eq_of_lt (by omega)
  · intro hs
    have hdm := Nat.div_add_mod c P
    have hc1 : c + 1 = P * (c / P) + P := by omega
    rw [hc1, Nat.mul_add_mod, Nat.mod_self]

/-- Residue of a successor below the modulus. -/
theorem succ_mod_of_lt (c P : Nat) (h : c % P + 1 < P) :
    (c + 1) % P = c % P + 1 := by
  have hdm := Nat.div_add_mod c P
  have hc1 : c + 1 = P * (c / P) + (c % P + 1) := by omega
  rw [hc1, Nat.mul_add_mod]
  exact Nat.mod_eq_of_lt h

/-- If the group countdown cannot reach a pool before the pairs run out,
the spec shape is a bare run of `(CONV -> ACT)` stages. -/
theorem specFrom_of_short (cfg : CNNConfig) :
    ∀ (ps : List (Nat × Nat)) (r : Nat), ps.length < r →
      specFrom cfg ps r = convActs cfg ps
  | [], _, _ => by simp [specFrom, convActs]
  | p :: rest, r, hlt => by
    have hr : ¬ r = 1 := by simp at hlt; omega
    simp only [specFrom, convActs, if_neg hr]
    rw [specFrom_of_short cfg rest (r - 1) (by simp at hlt; omega)]

/-- Splitting one complete group off the countdown shape. -/
theorem specFrom_split (cfg : CNNConfig) :
    ∀ (r : Nat) (ps : List (Nat × Nat)), 1 ≤ r → r ≤ ps.length →
      specFrom cfg ps r =
        convActs cfg (ps.take r) ++
          poolLayerOf cfg :: specFrom cfg (ps.drop r) cfg.pool_every
  | 0, _, h1, _ => absurd h1 (by omega)
  | _ + 1, [], _, hle => by simp at hle
  | 1, p :: rest, _, _ => by simp [specFrom, convActs]
  | r + 2, p :: rest, _, hle => by
    have hlen : r + 1 ≤ rest.length := by simp at hle; omega
    simp only [specFrom, List.take_succ_cons, List.drop_succ_cons, convActs,
      if_neg (by omega : ¬ r + 2 = 1)]
    rw [show r + 2 - 1 = r + 1 from rfl,
      specFrom_split cfg (r + 1) rest (by omega) hlen]
    simp

/-- The builder loop emits exactly the countdown shape, where the
countdown distance to the next pool is `pool_every - counter % pool_every`. -/
theorem cnnLoop_layers (cfg : CNNConfig) (hP : 1 ≤ cfg.pool_every) :
    ∀ (ps : List (Nat × Nat)) (c : Nat) (h w : Int),
      (cnnLoop cfg ps c h w).1 =
        specFrom cfg ps (cfg.pool_every - c % cfg.pool_every)
  | [], _, _, _ => by simp [cnnLoop, specFrom]
  | p :: rest, c, h, w => by
    have hcP : c % cfg.pool_every < cfg.pool_every := Nat.mod_lt _ (by omega)
    by_cases hc : (c + 1) % cfg.pool_every = 0
    · have hcmod : c % cfg.pool_every = cfg.pool_every - 1 :=
        (succ_mod_eq_zero_iff c cfg.pool_every hP).1 hc
      have hr1 : cfg.pool_every - c % cfg.pool_every = 1 := by omega
      simp [cnnLoop, hc, specFrom, hr1, cnnLoop_layers cfg hP rest (c + 1)]
    · have hlt : c % cfg.pool_every + 1 < cfg.pool_every := by
        rcases Nat.lt_or_ge (c % cfg.pool_every + 1) cfg.pool_every with h1 | h2
        · exact h1
        · exact absurd ((succ_mod_eq_zero_iff c cfg.pool_every hP).2 (by omega)) hc
      have hstep : (c + 1) % cfg.pool_every = c % cfg.pool_every + 1 :=
        succ_mod_of_lt c cfg.pool_every hlt
      have hr : ¬ cfg.pool_every - c % cfg.pool_every = 1 := by omega
      have harith : cfg.pool_every - (c % cfg.pool_every + 1) =
          cfg.pool_every - c % cfg.pool_every - 1 := by omega
      simp [cnnLoop, hc, specFrom, hr, hstep, harith,
        cnnLoop_layers cfg hP rest (c + 1)]

/-- The countdown shape started at a full countdown is the grouped
pipeline with `length / pool_every` complete groups. -/
theorem specFrom_eq_groups (cfg : CNNConfig) (hP : 1 ≤ cfg.pool_every)
    (ps : List (Nat × Nat)) :
    specFrom cfg ps cfg.pool_every =
      cnnPipelineGroups cfg (ps.length / cfg.pool_every) ps := by
  by_cases hlen : ps.length < cfg.pool_every
  · rw [Nat.div_eq_of_lt hlen, specFrom_of_short cfg ps cfg.pool_every hlen]
    rfl
  · push_neg at hlen
    have hdiv : ps.length / cfg.pool_every =
        (ps.length - cfg.pool_every) / cfg.pool_every + 1 := by
      rcases Nat.exists_eq_add_of_le hlen with ⟨m, hm⟩
      rw [hm, Nat.add_comm cfg.pool_every m, Nat.add_div_right _ (by omega),
        Nat.add_sub_cancel]
    rw [hdiv, specFrom_split cfg cfg.pool_every ps (by omega) hlen]
    show _ = convActs cfg (ps.take cfg.pool_every) ++
      (poolLayerOf cfg :: cnnPipelineGroups cfg _ (ps.drop cfg.pool_every))
    rw [specFrom_eq_groups cfg hP (ps.drop cfg.pool_every)]
    rw [List.length_drop]
termination_by ps.length
decreasing_by
  rw [List.length_drop]
  omega

/-- A conv/activation pair counts as one stage-unit. -/
theorem stageUnits_convAct_cons (cfg : CNNConfig) (p : Nat × Nat)
    (l : List Layer) :
    stageUnits (cnnConvLayer cfg.conv_params p.1 p.2 :: actLayerOf cfg :: l) =
      stageUnits l + 1 := rfl

/-- A pooling layer counts as one stage-unit. -/
theorem stageUnits_pool_cons (cfg : CNNConfig) (l : List Layer) :
    stageUnits (poolLayerOf cfg :: l) = stageUnits l + 1 := rfl

/-- Stage-units add over concatenation. -/
theorem stageUnits_append :
    ∀ (a b : List Layer), stageUnits (a ++ b) = stageUnits a + stageUnits b
  | [], _ => by simp [stageUnits]
  | l :: rest, b => by
    have ih := stageUnits_append rest b
    cases l <;> simp [stageUnits, List.append_eq, ih] <;> omega

/-- A run of `(CONV -> ACT)` stages has one stage-unit per channel pair. -/
theorem stageUnits_convActs (cfg : CNNConfig) :
    ∀ ps : List (Nat × Nat), stageUnits (convActs cfg ps) = ps.length
  | [] => rfl
  | p :: rest => by
    rw [convActs, stageUnits_convAct_cons, stageUnits_convActs cfg rest]
    simp

/-- The grouped pipeline over `g` complete groups has one stage-unit per
channel pair plus one per group. -/
theorem stageUnits_groups (cfg : CNNConfig) :
    ∀ (g : Nat) (ps : List (Nat × Nat)), g * cfg.pool_every ≤ ps.length →
      stageUnits (cnnPipelineGroups cfg g ps) = ps.length + g
  | 0, ps, _ => by simp [cnnPipelineGroups, stageUnits_convActs cfg ps]
  | g + 1, ps, hle => by
    have hPle : cfg.pool_every ≤ ps.length := by
      calc cfg.pool_every ≤ (g + 1) * cfg.pool_every :=
            Nat.le_mul_of_pos_left _ (Nat.succ_pos g)
        _ ≤ ps.length := hle
    have hrec : g * cfg.pool_every ≤ (ps.drop cfg.pool_every).length := by
      rw [List.length_drop]
      apply Nat.le_sub_of_add_le
      rw [← Nat.succ_mul]
      exact hle
    rw [cnnPipelineGroups, stageUnits_append, stageUnits_pool_cons,
      stageUnits_groups cfg g (ps.drop cfg.pool_every) hrec,
      stageUnits_convActs, List.length_take, List.length_drop]
    have hmin : min cfg.pool_every ps.length = cfg.pool_every :=
      min_eq_left hPle
    omega

/-- The channel-pair list has one entry per requested channel count. -/
theorem convPairs_length (cfg : CNNConfig) :
    (convPairs cfg).length = cfg.channels.length := by
  simp only [convPairs, List.length_zip, List.length_cons, List.length_dropLast]
  omega

/-- C1: for every valid configuration (non-empty channels handled like any
other; pooling interval at least one), the plain CNN feature extractor is
exactly `[(CONV -> ACT) * P -> POOL] * (N / P)` followed by `N % P`
trailing `(CONV -> ACT)` stages with no pool after them, and it contains
exactly `N + N / P` stage-units. -/
theorem claim_C1 (cfg : CNNConfig) (hP : 1 ≤ cfg.pool_every) :
    (cnnMakeFeatureExtractor cfg).1 = cnnPipelineSpec cfg ∧
    stageUnits (cnnMakeFeatureExtractor cfg).1 =
      cfg.channels.length + cfg.channels.length / cfg.pool_every := by
  have h1 : (cnnMakeFeatureExtractor cfg).1 = cnnPipelineSpec cfg := by
    unfold cnnMakeFeatureExtractor cnnPipelineSpec
    rw [cnnLoop_layers cfg hP (convPairs cfg) 0 cfg.in_h cfg.in_w,
      Nat.zero_mod, Nat.sub_zero, specFrom_eq_groups cfg hP (convPairs cfg),
      convPairs_length]
  refine ⟨h1, ?_⟩
  rw [h1]
  unfold cnnPipelineSpec
  rw [stageUnits_groups cfg _ _ (by
    rw [convPairs_length]; exact Nat.div_mul_le_self _ _), convPairs_length]

/-- Concrete configuration exercising C1. -/
def c1cfg : CNNConfig :=
  { in_channels := 3, in_h := 8, in_w := 8, out_classes := 2,
    channels := [4, 5, 6], pool_every := 2, hidden_dims := [7],
    conv_params := ⟨3, 1, 1⟩, pool_kernel := 2 }

/-- Witness for C1 at a concrete configuration. -/
theorem claim_C1_witness :
    1 ≤ c1cfg.pool_every ∧
      ((cnnMakeFeatureExtractor c1cfg).1 = cnnPipelineSpec c1cfg ∧
        stageUnits (cnnMakeFeatureExtractor c1cfg).1 =
          c1cfg.channels.length + c1cfg.channels.length / c1cfg.pool_every) :=
  ⟨by decide, claim_C1 c1cfg (by decide)⟩

/-- Dropping before an in-range index exposes that element in front. -/
theorem drop_cons_getD {α : Type} (d : α) :
    ∀ (l : List α) (n : Nat), n < l.length →
      l.drop n = l.getD n d :: l.drop (n + 1)
  | a :: t, 0, _ => rfl
  | a :: t, n + 1, h => by
    simp only [List.drop_succ_cons, List.getD_cons_succ]
    exact drop_cons_getD d t n (by simpa using h)

/-- The spec-side main path of an empty kernel list is empty. -/
theorem mainPathSpecGo_nil (cfg : ResBlockConfig) :
    ∀ cs : List Nat, mainPathSpecGo cfg cs [] = []
  | [] => rfl
  | [_] => rfl
  | _ :: _ :: _ => rfl

/-- Equation of the spec-side main path at the last convolution. -/
theorem mainPathSpecGo_single (cfg : ResBlockConfig) (cin cout : Nat)
    (cs : List Nat) (k : Nat) :
    mainPathSpecGo cfg (cin :: cout :: cs) [k] =
      [Layer.conv2d cin cout k 1 Padding.same true] := rfl

/-- Equation of the spec-side main path at a non-last convolution. -/
theorem mainPathSpecGo_cons (cfg : ResBlockConfig) (cin cout : Nat)
    (cs : List Nat) (k k2 : Nat) (ks : List Nat) :
    mainPathSpecGo cfg (cin :: cout :: cs) (k :: k2 :: ks) =
      Layer.conv2d cin cout k 1 Padding.same true ::
        ((if 0 < cfg.dropout then [Layer.dropout2d cfg.dropout] else []) ++
          (if cfg.batchnorm then [Layer.batchnorm2d cout] else []) ++
          (Layer.act cfg.activation_type cfg.activation_slope ::
            mainPathSpecGo cfg (cout :: cs) (k2 :: ks))) := rfl

/-- The indexed source loop produces, from any start index, the spec-side
main path of the corresponding list suffixes. -/
theorem resMainGo_spec (cfg : ResBlockConfig)
    (hlen : cfg.channels.length = cfg.kernel_sizes.length) (i : Nat) :
    resMainGo cfg i =
      mainPathSpecGo cfg ((allChannelsOf cfg).drop i)
        (cfg.kernel_sizes.drop i) := by
  by_cases hi : i < cfg.kernel_sizes.length
  · have hall : (allChannelsOf cfg).length = cfg.kernel_sizes.length + 1 := by
      simp [allChannelsOf, hlen]
    have hdropC : (allChannelsOf cfg).drop i =
        (allChannelsOf cfg).getD i 0 :: (allChannelsOf cfg).drop (i + 1) :=
      drop_cons_getD 0 _ i (by omega)
    have hdropC2 : (allChannelsOf cfg).drop (i + 1) =
        (allChannelsOf cfg).getD (i + 1) 0 :: (allChannelsOf cfg).drop (i + 2) :=
      drop_cons_getD 0 _ (i + 1) (by omega)
    have hdropK : cfg.kernel_sizes.drop i =
        cfg.kernel_sizes.getD i 0 :: cfg.kernel_sizes.drop (i + 1) :=
      drop_cons_getD 0 _ i hi
    by_cases hlast : i = cfg.kernel_sizes.length - 1
    · have hkz : cfg.kernel_sizes.drop (i + 1) = [] :=
        List.drop_eq_nil_of_le (by omega)
      rw [resMainGo.eq_def, dif_pos hi, if_pos hlast, hdropC, hdropC2, hdropK,
        hkz, mainPathSpecGo_single]
    · have hi1 : i + 1 < cfg.kernel_sizes.length := by omega
      have hdropK2 : cfg.kernel_sizes.drop (i + 1) =
          cfg.kernel_sizes.getD (i + 1) 0 :: cfg.kernel_sizes.drop (i + 2) :=
        drop_cons_getD 0 _ (i + 1) hi1
      have ih := resMainGo_spec cfg hlen (i + 1)
      rw [hdropC2, hdropK2] at ih
      rw [resMainGo.eq_def, dif_pos hi, if_neg hlast, hdropC, hdropC2, hdropK,
        hdropK2, mainPathSpecGo_cons, ih]
  · have h1 : cfg.kernel_sizes.drop i = [] := List.drop_eq_nil_of_le (by omega)
    rw [resMainGo.eq_def, dif_neg hi, h1, mainPathSpecGo_nil]
termination_by cfg.kernel_sizes.length - i
decreasing_by omega

/-- C5: in every successfully constructed residual block, the main path is
the claimed shape: the convolutions `channels[i-1] -> channels[i]` with
kernel `kernel_sizes[i]`, same-size padding and bias, where every
convolution except the last is followed by dropout (only if positive),
then batchnorm (only if enabled), then the activation, in that order, and
the last convolution by none of these. -/
theorem claim_C5 (cfg : ResBlockConfig) (b : ResBlock)
    (hok : residualBlockInit cfg = Except.ok b) :
    b.main_path = mainPathSpec cfg := by
  unfold residualBlockInit at hok
  split_ifs at hok with h1 h2 h3 h4 h5
  all_goals injection hok with hb
  all_goals rw [← hb]
  all_goals show resMainGo cfg 0 = mainPathSpec cfg
  all_goals rw [resMainGo_spec cfg h2 0]
  all_goals simp [mainPathSpec]

/-- Concrete configuration exercising C5. -/
def c5cfg : ResBlockConfig :=
  { in_channels := 3, channels := [4, 5], kernel_sizes := [3, 3],
    batchnorm := true, dropout := 1/2, activation_type := "lrelu",
    activation_slope := 1/10 }

/-- The block built from the C5 configuration. -/
def c5block : ResBlock := ((residualBlockInit c5cfg).toOption).getD ⟨[], []⟩

/-- Witness for C5 at a concrete configuration. -/
theorem claim_C5_witness : c5block.main_path = mainPathSpec c5cfg :=
  claim_C5 c5cfg c5block (by rfl)

/-- C6: in every successfully constructed residual block, the shortcut is
the identity exactly when the input channel count equals the final output
channel count; on a mismatch it is exactly one bias-free same-padded 1x1
convolution; and the shortcut carries no learned parameters exactly in the
identity case. -/
theorem claim_C6 (cfg : ResBlockConfig) (b : ResBlock)
    (hok : residualBlockInit cfg = Except.ok b) :
    (b.shortcut_path = [Layer.identity] ↔
      cfg.in_channels = cfg.channels.getLastD 0) ∧
    (cfg.in_channels ≠ cfg.channels.getLastD 0 →
      b.shortcut_path =
        [Layer.conv2d cfg.in_channels (cfg.channels.getLastD 0) 1 1
          Padding.same false]) ∧
    ((b.shortcut_path.any layerHasParams = false) ↔
      cfg.in_channels = cfg.channels.getLastD 0) := by
  unfold residualBlockInit at hok
  split_ifs at hok with h1 h2 h3 h4 h5
  all_goals injection hok with hb
  all_goals rw [← hb]
  all_goals simp [h5, layerHasParams]
  all_goals try simpa using h5

/-- Concrete configuration exercising C6 (identity shortcut). -/
def c6cfg : ResBlockConfig :=
  { in_channels := 4, channels := [8, 4], kernel_sizes := [3, 3] }

/-- The block built from the C6 configuration. -/
def c6block : ResBlock := ((residualBlockInit c6cfg).toOption).getD ⟨[], []⟩

/-- Witness for C6 at a concrete configuration. -/
theorem claim_C6_witness :
    (c6block.shortcut_path = [Layer.identity] ↔
      c6cfg.in_channels = c6cfg.channels.getLastD 0) ∧
    (c6cfg.in_channels ≠ c6cfg.channels.getLastD 0 →
      c6block.shortcut_path =
        [Layer.conv2d c6cfg.in_channels (c6cfg.channels.getLastD 0) 1 1
          Padding.same false]) ∧
    ((c6block.shortcut_path.any layerHasParams = false) ↔
      c6cfg.in_channels = c6cfg.channels.getLastD 0) :=
  claim_C6 c6cfg c6block (by rfl)

/-- C7: the forward pass of every constructed residual block applies the
unconditional rectified-linear activation to the elementwise sum of the
two paths, and this final activation genuinely differs from the leaky-relu
the block may have been configured with (for a nonzero slope). -/
theorem claim_C7 (sem : Layer → Rat → Rat) (cfg : ResBlockConfig)
    (b : ResBlock) (x : Rat) (hok : residualBlockInit cfg = Except.ok b) :
    residualForward sem b x =
      reluQ (evalPath sem b.main_path x + evalPath sem b.shortcut_path x) ∧
    (cfg.activation_slope ≠ 0 →
      lreluQ cfg.activation_slope (-1) ≠ reluQ (-1)) := by
  refine ⟨rfl, fun hs => ?_⟩
  have h1 : lreluQ cfg.activation_slope (-1) = -cfg.activation_slope := by
    rw [lreluQ, if_pos (by norm_num : (-1 : Rat) < 0)]
    ring
  have h2 : reluQ (-1) = 0 := by
    rw [reluQ, max_eq_right (by norm_num : (-1 : Rat) ≤ 0)]
  rw [h1, h2]
  simpa using hs

/-- Concrete configuration exercising C7 (leaky-relu block). -/
def c7cfg : ResBlockConfig :=
  { in_channels := 2, channels := [2], kernel_sizes := [3],
    activation_type := "lrelu", activation_slope := 1/10 }

/-- The block built from the C7 configuration. -/
def c7block : ResBlock := ((residualBlockInit c7cfg).toOption).getD ⟨[], []⟩

/-- An abstract elementwise semantics for the linear layers. -/
def c7sem : Layer → Rat → Rat := fun _ x => x

/-- Witness for C7 at a concrete configuration. -/
theorem claim_C7_witness :
    residualForward c7sem c7block 2 =
      reluQ (evalPath c7sem c7block.main_path 2 +
        evalPath c7sem c7block.shortcut_path 2) ∧
    (c7cfg.activation_slope ≠ 0 →
      lreluQ c7cfg.activation_slope (-1) ≠ reluQ (-1)) :=
  claim_C7 c7sem c7cfg c7block 2 (by rfl)

/-- C4: constructing a bottleneck residual block is the same as
constructing a plain residual block whose channel sequence is the inner
sequence with its first element prepended and the in/out count appended,
and whose kernel sequence is the inner one bracketed by two 1s; in
particular `(C, [c1, c2], [k1, k2])` yields the plain block
`(C, [c1, c1, c2, C], [1, k1, k2, 1])`. -/
theorem claim_C4 (C : Nat) (inner ks : List Nat) (bn : Bool) (dp : Rat)
    (aty : String) (aslope : Rat) (hne : inner ≠ [])
    (hlen : inner.length = ks.length) :
    (residualBottleneckBlockInit C inner ks bn dp aty aslope =
      residualBlockInit
        { in_channels := C, channels := inner.headD 0 :: (inner ++ [C]),
          kernel_sizes := 1 :: (ks ++ [1]), batchnorm := bn, dropout := dp,
          activation_type := aty, activation_slope := aslope }) ∧
    (∀ c1 c2 k1 k2 : Nat,
      residualBottleneckBlockInit C [c1, c2] [k1, k2] bn dp aty aslope =
        residualBlockInit
          { in_channels := C, channels := [c1, c1, c2, C],
            kernel_sizes := [1, k1, k2, 1], batchnorm := bn, dropout := dp,
            activation_type := aty, activation_slope := aslope }) := by
  constructor
  · obtain ⟨a, t, rfl⟩ : ∃ a t, inner = a :: t := by
      cases inner with
      | nil => exact absurd rfl hne
      | cons a t => exact ⟨a, t, rfl⟩
    unfold residualBottleneckBlockInit
    simp [hlen]
  · intro c1 c2 k1 k2
    unfold residualBottleneckBlockInit
    simp

/-- Witness for C4 at a concrete configuration. -/
theorem claim_C4_witness :
    residualBottleneckBlockInit 8 [2, 4] [3, 5] false 0 "relu" 0 =
      residualBlockInit
        { in_channels := 8, channels := [2, 2, 4, 8],
          kernel_sizes := [1, 3, 5, 1], batchnorm := false, dropout := 0,
          activation_type := "relu", activation_slope := 0 } :=
  (claim_C4 8 [2, 4] [3, 5] false 0 "relu" 0 (by decide) (by decide)).2 2 4 3 5

/-- C2 (amended): each complete group is realized as a bottleneck residual
block exactly when bottleneck mode is on and the group's input channel
count equals its output channel count, and otherwise as a plain residual
block; but when the bottleneck branch is selected with a group size of at
most 2, construction fails with an assertion error (empty inner channel
list) instead of falling back to the plain block.  The same
channel-equality test — with no size fallback — is applied independently
to the trailing remainder group. -/
theorem claim_C2 (cfg : ResNetConfig) (i : Nat)
    (hi : i < cfg.channels.length / cfg.pool_every) :
    (¬(cfg.bottleneck = true ∧
        (resnetAllChannels cfg).getD (i * cfg.pool_every) 0 =
          (resnetAllChannels cfg).getD (cfg.pool_every * (i + 1)) 0) →
      resnetGroupBlock cfg i =
        residualBlockInit
          { in_channels := (resnetAllChannels cfg).getD (i * cfg.pool_every) 0
            channels :=
              ((resnetAllChannels cfg).drop (i * cfg.pool_every + 1)).take
                cfg.pool_every
            kernel_sizes := List.replicate cfg.pool_every 3
            batchnorm := cfg.batchnorm
            dropout := cfg.dropout
            activation_type := cfg.activation_type
            activation_slope := cfg.activation_slope }) ∧
    (cfg.bottleneck = true ∧
        (resnetAllChannels cfg).getD (i * cfg.pool_every) 0 =
          (resnetAllChannels cfg).getD (cfg.pool_every * (i + 1)) 0 →
      resnetGroupBlock cfg i =
        residualBottleneckBlockInit
          ((resnetAllChannels cfg).getD (i * cfg.pool_every) 0)
          (((resnetAllChannels cfg).drop (i * cfg.pool_every + 2)).take
            (cfg.pool_every - 2))
          (List.replicate (cfg.pool_every - 2) 3)
          cfg.batchnorm cfg.dropout cfg.activation_type cfg.activation_slope ∧
      (cfg.pool_every ≤ 2 →
        resnetGroupBlock cfg i = Except.error BuildErr.assertionError)) ∧
    (0 < cfg.channels.length % cfg.pool_every →
      (¬(cfg.bottleneck = true ∧
          (resnetAllChannels cfg).getD
            ((resnetAllChannels cfg).length -
              cfg.channels.length % cfg.pool_every - 1) 0 =
            (resnetAllChannels cfg).getLastD 0) →
        resnetRemainderStages cfg =
          (residualBlockInit
            { in_channels := (resnetAllChannels cfg).getD
                ((resnetAllChannels cfg).length -
                  cfg.channels.length % cfg.pool_every - 1) 0
              channels := (resnetAllChannels cfg).drop
                ((resnetAllChannels cfg).length -
                  cfg.channels.length % cfg.pool_every)
              kernel_sizes :=
                List.replicate (cfg.channels.length % cfg.pool_every) 3
              batchnorm := cfg.batchnorm
              dropout := cfg.dropout
              activation_type := cfg.activation_type
              activation_slope := cfg.activation_slope }).map
            (fun b => [RStage.block b])) ∧
      (cfg.bottleneck = true ∧
          (resnetAllChannels cfg).getD
            ((resnetAllChannels cfg).length -
              cfg.channels.length % cfg.pool_every - 1) 0 =
            (resnetAllChannels cfg).getLastD 0 →
        resnetRemainderStages cfg =
          (residualBottleneckBlockInit
            ((resnetAllChannels cfg).getD
              ((resnetAllChannels cfg).length -
                cfg.channels.length % cfg.pool_every - 1) 0)
            (((resnetAllChannels cfg).drop
              ((resnetAllChannels cfg).length -
                cfg.channels.length % cfg.pool_every)).dropLast)
            (List.replicate (cfg.pool_every - 2) 3)
            cfg.batchnorm cfg.dropout cfg.activation_type
            cfg.activation_slope).map
            (fun b => [RStage.block b]))) := by
  have hsm : (i + 1) * cfg.pool_every = i * cfg.pool_every + cfg.pool_every :=
    Nat.succ_mul i cfg.pool_every
  have htake1 : (i + 1) * cfg.pool_every + 1 - (i * cfg.pool_every + 1) =
      cfg.pool_every := by rw [hsm]; omega
  have htake2 : (i + 1) * cfg.pool_every - (i * cfg.pool_every + 2) =
      cfg.pool_every - 2 := by rw [hsm]; omega
  refine ⟨?_, ?_, ?_⟩
  · intro h
    have hcond : (resnetAllChannels cfg).getD (i * cfg.pool_every) 0 ≠
        (resnetAllChannels cfg).getD (cfg.pool_every * (i + 1)) 0 ∨
        cfg.bottleneck = false := by
      cases hb : cfg.bottleneck with
      | true => exact Or.inl (fun he => h ⟨hb, he⟩)
      | false => exact Or.inr rfl
    unfold resnetGroupBlock
    rw [if_pos hcond, htake1]
  · rintro ⟨hb, he⟩
    have heq : resnetGroupBlock cfg i =
        residualBottleneckBlockInit
          ((resnetAllChannels cfg).getD (i * cfg.pool_every) 0)
          (((resnetAllChannels cfg).drop (i * cfg.pool_every + 2)).take
            (cfg.pool_every - 2))
          (List.replicate (cfg.pool_every - 2) 3)
          cfg.batchnorm cfg.dropout cfg.activation_type cfg.activation_slope := by
      unfold resnetGroupBlock
      rw [if_neg (not_or.mpr ⟨not_not_intro he, bool_true_not_false hb⟩), htake2]
    refine ⟨heq, fun hP2 => ?_⟩
    rw [heq]
    have hz : cfg.pool_every - 2 = 0 := by omega
    rw [hz]
    unfold residualBottleneckBlockInit
    rw [if_pos (by simp)]
  · intro hrem
    constructor
    · intro h
      have hcond : (resnetAllChannels cfg).getD
          ((resnetAllChannels cfg).length -
            cfg.channels.length % cfg.pool_every - 1) 0 ≠
          (resnetAllChannels cfg).getLastD 0 ∨ cfg.bottleneck = false := by
        cases hb : cfg.bottleneck with
        | true => exact Or.inl (fun he => h ⟨hb, he⟩)
        | false => exact Or.inr rfl
      unfold resnetRemainderStages
      rw [if_pos hrem, if_pos hcond]
    · rintro ⟨hb, he⟩
      unfold resnetRemainderStages
      rw [if_pos hrem,
        if_neg (not_or.mpr ⟨not_not_intro he, bool_true_not_false hb⟩)]

/-- Concrete ResNet configuration exercising the amended C2: bottleneck
mode on, matching group channels, group size 3. -/
def c2wcfg : ResNetConfig :=
  { in_channels := 4, in_h := 8, in_w := 8, out_classes := 2,
    channels := [8, 8, 4], pool_every := 3, hidden_dims := [4],
    bottleneck := true, pool_kernel := 2 }

/-- Witness for the amended C2 at a concrete configuration. -/
theorem claim_C2_witness :
    resnetGroupBlock c2wcfg 0 =
      residualBottleneckBlockInit
        ((resnetAllChannels c2wcfg).getD (0 * c2wcfg.pool_every) 0)
        (((resnetAllChannels c2wcfg).drop (0 * c2wcfg.pool_every + 2)).take
          (c2wcfg.pool_every - 2))
        (List.replicate (c2wcfg.pool_every - 2) 3)
        c2wcfg.batchnorm c2wcfg.dropout c2wcfg.activation_type
        c2wcfg.activation_slope ∧
    (c2wcfg.pool_every ≤ 2 →
      resnetGroupBlock c2wcfg 0 = Except.error BuildErr.assertionError) :=
  (claim_C2 c2wcfg 0 (by decide)).2.1 ⟨rfl, by decide⟩

/-- Concrete ResNet configuration refuting the original C2: bottleneck
mode on, matching channels, group size `P = 2`. -/
def c2cfg : ResNetConfig :=
  { in_channels := 4, in_h := 8, in_w := 8, out_classes := 2,
    channels := [4, 4], pool_every := 2, hidden_dims := [8],
    bottleneck := true, pool_kernel := 2 }

/-- Counterexample to C2 as stated: for a complete group of size
`P = 2` with bottleneck mode enabled and matching channels, construction
does not fall back to a plain residual block — it fails with the
assertion error raised by the empty inner channel list. -/
theorem claim_C2_counterexample :
    resnetMakeFeatureExtractor c2cfg = Except.error BuildErr.assertionError := rfl

/-- C8 (amended): the feature-count probe saves the global RNG state
before running and restores it afterwards in a `finally` block, so the
states observed immediately before and after the probe are identical, for
both extractor families and also when the probe raises (result `none`);
the probe may however consume random state internally. -/
theorem claim_C8 :
    (∀ (stages : List RStage) (pr : Option Nat) (rng : Nat),
      (nFeaturesRngResnet stages pr rng).2 = rng) ∧
    (∀ (layers : List Layer) (pr : Option Nat) (rng : Nat),
      (nFeaturesRngCnn layers pr rng).2 = rng) ∧
    (∀ (stages : List RStage) (rng : Nat),
      (nFeaturesRngResnet stages none rng).2 = rng) :=
  ⟨fun _ _ _ => rfl, fun _ _ _ => rfl, fun _ _ => rfl⟩

/-- Concrete ResNet configuration with active dropout. -/
def c8cfg : ResNetConfig :=
  { in_channels := 3, in_h := 8, in_w := 8, out_classes := 2,
    channels := [4, 4], pool_every := 2, hidden_dims := [4],
    dropout := 1/2, pool_kernel := 2 }

/-- The residual-block configuration of the single group of `c8cfg`. -/
def c8bc : ResBlockConfig :=
  { in_channels := 3, channels := [4, 4], kernel_sizes := [3, 3],
    dropout := 1/2 }

/-- The extractor built from the C8 configuration: one plain residual
block (whose main path contains an active dropout layer) followed by one
pooling stage. -/
def c8stages : List RStage :=
  [RStage.block
    { main_path :=
        [Layer.conv2d 3 4 3 1 Padding.same true,
         Layer.dropout2d (1/2),
         Layer.act "relu" 0,
         Layer.conv2d 4 4 3 1 Padding.same true]
      shortcut_path := [Layer.conv2d 3 4 1 1 Padding.same false] },
   RStage.pool2d "max" 2]

/-- Counterexample to C8 as stated: the probe's forward run is not free of
random-state consumption — the model is never switched to inference mode,
so the dropout layer of this successfully built extractor advances the
generator during the probe. -/
theorem claim_C8_counterexample :
    resnetMakeFeatureExtractor c8cfg = Except.ok c8stages ∧
    (probeRun c8stages (some 0) 0).2 ≠ 0 := by
  constructor
  · have hmain1 : resMainGo c8bc 1 = [Layer.conv2d 4 4 3 1 Padding.same true] := by
      rw [resMainGo.eq_def]
      norm_num [c8bc, allChannelsOf]
    have hmain0 : resMainGo c8bc 0 =
        [Layer.conv2d 3 4 3 1 Padding.same true, Layer.dropout2d (1/2),
         Layer.act "relu" 0, Layer.conv2d 4 4 3 1 Padding.same true] := by
      rw [resMainGo.eq_def]
      norm_num [c8bc, allChannelsOf]
      exact hmain1
    have hfe : resnetMakeFeatureExtractor c8cfg =
        Except.ok
          [RStage.block
            { main_path := resMainGo c8bc 0
              shortcut_path := [Layer.conv2d 3 4 1 1 Padding.same false] },
            RStage.pool2d "max" 2] := rfl
    rw [hfe, hmain0]
    rfl
  · decide

/-- C9: with the always-checked list asserts passing, construction raises
the configuration `ValueError` exactly for an unsupported activation or
pooling kind — before any layer is observable — and never raises it for
supported kinds. -/
theorem claim_C9 (cfg : CNNConfig) (hch : cfg.channels ≠ [])
    (hhd : cfg.hidden_dims ≠ []) :
    ((cfg.activation_type ∉ ACTIVATIONS ∨ cfg.pooling_type ∉ POOLINGS) →
      cnnInit cfg = Except.error BuildErr.valueError) ∧
    (cfg.activation_type ∈ ACTIVATIONS ∧ cfg.pooling_type ∈ POOLINGS →
      cnnInit cfg ≠ Except.error BuildErr.valueError) := by
  have hne : ¬ (cfg.channels.isEmpty = true ∨ cfg.hidden_dims.isEmpty = true) := by
    simp [hch, hhd]
  constructor
  · intro hbad
    unfold cnnInit
    rw [if_neg hne, if_pos hbad]
  · rintro ⟨ha, hp⟩ heq
    unfold cnnInit at heq
    rw [if_neg hne, if_neg (by simp [ha, hp])] at heq
    rcases hval : nFeaturesTrue (cnnMakeFeatureExtractor cfg).1
        (cfg.in_channels, cfg.in_h, cfg.in_w) with _ | n
    · rw [hval] at heq
      simp at heq
    · rw [hval] at heq
      simp at heq

/-- Concrete configuration with an unsupported activation kind. -/
def c9badcfg : CNNConfig :=
  { in_channels := 3, in_h := 8, in_w := 8, out_classes := 2,
    channels := [4], pool_every := 2, hidden_dims := [5],
    conv_params := ⟨3, 1, 1⟩, activation_type := "tanh", pool_kernel := 2 }

/-- Concrete configuration with supported kinds. -/
def c9goodcfg : CNNConfig :=
  { in_channels := 3, in_h := 8, in_w := 8, out_classes := 2,
    channels := [4], pool_every := 2, hidden_dims := [5],
    conv_params := ⟨3, 1, 1⟩, pool_kernel := 2 }

/-- Witness for C9 at concrete configurations. -/
theorem claim_C9_witness :
    cnnInit c9badcfg = Except.error BuildErr.valueError ∧
    cnnInit c9goodcfg ≠ Except.error BuildErr.valueError :=
  ⟨(claim_C9 c9badcfg (by decide) (by decide)).1 (by decide),
    (claim_C9 c9goodcfg (by decide) (by decide)).2 (by decide)⟩

/-- Concrete configuration where the dimension trackers disagree with the
actual extractor output. -/
def c10cfg : CNNConfig :=
  { in_channels := 3, in_h := 32, in_w := 32, out_classes := 5,
    channels := [16, 32], pool_every := 2, hidden_dims := [10],
    conv_params := ⟨3, 1, 1⟩, pool_kernel := 2 }

/-- The model built from the C10 configuration. -/
def c10model : CNNModel :=
  ((cnnInit c10cfg).toOption).getD ⟨[], 0, 0, 0, []⟩

/-- C10: in every successfully constructed model, the classifier head's
input dimension equals the element count obtained by running the
assembled extractor on one input of the configured shape — not the count
the `conv_out_h`/`conv_out_w` trackers would predict; at the concrete
configuration the two genuinely disagree (8192 actual versus 7200 from
the trackers) while the head matches the actual count. -/
theorem claim_C10 :
    (∀ (cfg : CNNConfig) (m : CNNModel), cnnInit cfg = Except.ok m →
      some m.mlp_in_dim =
        nFeaturesTrue m.feature_extractor
          (cfg.in_channels, cfg.in_h, cfg.in_w)) ∧
    cnnInit c10cfg = Except.ok c10model ∧
    c10model.mlp_in_dim = 8192 ∧
    trackerFeatures c10cfg c10model = 7200 ∧
    c10model.mlp_in_dim ≠ trackerFeatures c10cfg c10model := by
  refine ⟨?_, rfl, by decide, by decide, by decide⟩
  intro cfg m hok
  unfold cnnInit at hok
  split_ifs at hok with h1 h2
  rcases hval : nFeaturesTrue (cnnMakeFeatureExtractor cfg).1
      (cfg.in_channels, cfg.in_h, cfg.in_w) with _ | n
  · rw [hval] at hok
    injection hok
  · rw [hval] at hok
    injection hok with hm
    rw [← hm]
    show some n = nFeaturesTrue (cnnMakeFeatureExtractor cfg).1
      (cfg.in_channels, cfg.in_h, cfg.in_w)
    rw [hval]

/-- Witness for C10's universal part at the concrete configuration. -/
theorem claim_C10_witness :
    some c10model.mlp_in_dim =
      nFeaturesTrue c10model.feature_extractor
        (c10cfg.in_channels, c10cfg.in_h, c10cfg.in_w) :=
  claim_C10.1 c10cfg c10model rfl

end Hw2
